import Mathlib

/-!
Verification of the edlib-rs Rust binding (`src/edlib.rs`) against its
natural-language specification.

The repository's own code is the thin Rust marshalling layer `edlibAlignRs`
(plus configuration/result records and the CIGAR stub).  The native edlib
engine itself (`edlibAlign`, `edlibDefaultAlignConfig` from the generated
bindings) is not part of the repository sources, so it is modelled here from
the specification (bit-vector DP engine, bound controller, mode controller,
location finder, path reconstructor, cigar encoder).  The marshalling layer is
translated statement by statement from `src/edlib.rs`.
-/

/-! ## Status codes, enums and records from `src/edlib.rs` -/

/-- Status code `EDLIB_STATUS_OK` (src/edlib.rs line 14). -/
def EDLIB_STATUS_OK : Nat := 0

/-- Status code `EDLIB_STATUS_ERROR` (src/edlib.rs line 15). -/
def EDLIB_STATUS_ERROR : Nat := 1

/-- Alignment methods (src/edlib.rs lines 20-47). -/
inductive EdlibAlignModeRs where
  | EDLIB_MODE_NW
  | EDLIB_MODE_SHW
  | EDLIB_MODE_HW
deriving DecidableEq, Repr

/-- Alignment tasks (src/edlib.rs lines 52-60). -/
inductive EdlibAlignTaskRs where
  | EDLIB_TASK_DISTANCE
  | EDLIB_TASK_LOC
  | EDLIB_TASK_PATH
deriving DecidableEq, Repr

/-- Cigar output formats (src/edlib.rs lines 67-74). -/
inductive EdlibCigarFormatRs where
  | EDLIB_CIGAR_STANDARD
  | EDLIB_CIGAR_EXTENDED
deriving DecidableEq, Repr

/-- A pair of characters declared equal (src/edlib.rs lines 97-102).
Characters are modelled as their byte values. -/
structure EdlibEqualityPairRs where
  first : Nat
  second : Nat
deriving DecidableEq, Repr

/-- Configuration object for the align function (src/edlib.rs lines 109-139). -/
structure EdlibAlignConfigRs where
  k : Int
  mode : EdlibAlignModeRs
  task : EdlibAlignTaskRs
  additionalequalities : List EdlibEqualityPairRs
deriving DecidableEq, Repr

/-- Constructor helper (src/edlib.rs lines 146-151). -/
def EdlibAlignConfigRs.new (k : Int) (mode : EdlibAlignModeRs)
    (task : EdlibAlignTaskRs) (additionalequalities : List EdlibEqualityPairRs) :
    EdlibAlignConfigRs :=
  { k := k, mode := mode, task := task, additionalequalities := additionalequalities }

/-- The `Default` instance for the configuration (src/edlib.rs lines 156-164):
`k = -1, mode = EDLIB_MODE_NW, task = EDLIB_TASK_DISTANCE, no additional equalities`. -/
def EdlibAlignConfigRs.default : EdlibAlignConfigRs :=
  { k := -1,
    mode := EdlibAlignModeRs.EDLIB_MODE_NW,
    task := EdlibAlignTaskRs.EDLIB_TASK_DISTANCE,
    additionalequalities := [] }

/-- Result record of the Rust wrapper (src/edlib.rs lines 170-209).
The C `NULL` pointers of the location and alignment arrays are modelled by
`Option.none`. -/
structure EdlibAlignResultRs where
  status : Nat
  editDistance : Int
  endLocations : Option (List Int)
  startLocations : Option (List Int)
  numLocations : Nat
  alignment : Option (List Nat)
  alignmentLength : Nat
  alphabetLength : Nat
deriving DecidableEq, Repr

/-- The `Default` instance for the result record (src/edlib.rs lines 213-226). -/
def EdlibAlignResultRs.default : EdlibAlignResultRs :=
  { status := EDLIB_STATUS_OK,
    editDistance := 0,
    endLocations := none,
    startLocations := none,
    numLocations := 0,
    alignment := none,
    alignmentLength := 0,
    alphabetLength := 0 }

/-! ## Spec-modelled native engine

The native edlib engine is absent from the repository sources (only its
bindings are called), so the following definitions are modelled from the
specification. -/

/-- Modelled from the spec: the C result record `EdlibAlignResult` produced by
the native engine (spec section 3 `AlignmentResult`); `none` models a `NULL`
array pointer. -/
structure EdlibAlignResult where
  status : Nat
  editDistance : Int
  endLocations : Option (List Int)
  startLocations : Option (List Int)
  numLocations : Nat
  alignment : Option (List Nat)
  alignmentLength : Nat
  alphabetLength : Nat
deriving DecidableEq, Repr

/-- Modelled from the spec: the equality relation on symbols extended by the
user-declared equality pairs, applied pairwise in both directions and not
transitively closed (spec sections 3 and 9). -/
def eqOf (pairs : List EdlibEqualityPairRs) (a b : Nat) : Bool :=
  (a == b) ||
    pairs.any fun p => (p.first == a && p.second == b) || (p.first == b && p.second == a)

/-- Modelled from the spec: unit edit costs (gap cost is always unit, uniform;
substitution is free exactly on symbols equal under the extended relation). -/
def edlibCost (eqc : Nat → Nat → Bool) : Levenshtein.Cost Nat Nat Nat :=
  { delete := fun _ => 1,
    insert := fun _ => 1,
    substitute := fun a b => if eqc a b then 0 else 1 }

/-- Modelled from the spec: the Global (NW) distance is the Levenshtein
distance between query and target (spec sections 4.2 and 4.4). -/
def distNW (eqc : Nat → Nat → Bool) (q t : List Nat) : Nat :=
  levenshtein (edlibCost eqc) q t

/-- Modelled from the spec: Global-mode distances from the query to every
prefix of the target (the per-column costs of spec section 4.5, plus the empty
prefix). -/
def prefDists (eqc : Nat → Nat → Bool) (q t : List Nat) : List Nat :=
  (List.range (t.length + 1)).map fun l => distNW eqc q (t.take l)

/-- Modelled from the spec: the PrefixFree (SHW) distance, where deleting a
suffix of the target is free: the minimum over all target prefixes of the
Global distance (spec section 4.4). -/
def distSHW (eqc : Nat → Nat → Bool) (q t : List Nat) : Nat :=
  (prefDists eqc q t).foldr min (distNW eqc q t)

/-- Modelled from the spec: the InfixFree (HW) distance, where deleting both a
prefix and a suffix of the target is free: the minimum over all contiguous
target substrings of the Global distance (spec section 4.4). -/
def distHW (eqc : Nat → Nat → Bool) (q t : List Nat) : Nat :=
  ((List.range (t.length + 1)).map fun i => distSHW eqc q (t.drop i)).foldr min
    (distSHW eqc q t)

/-- Modelled from the spec: the distance computed by the engine for a given
alignment mode (spec section 4.4). -/
def modeDist (eqc : Nat → Nat → Bool) :
    EdlibAlignModeRs → List Nat → List Nat → Nat
  | EdlibAlignModeRs.EDLIB_MODE_NW => distNW eqc
  | EdlibAlignModeRs.EDLIB_MODE_SHW => distSHW eqc
  | EdlibAlignModeRs.EDLIB_MODE_HW => distHW eqc

/-- Modelled from the spec: the HW per-column cost at target column `j`: the
best distance of the query against a substring of the target ending exactly at
position `j` (zero-initialized first row, spec section 4.4). -/
def colCostHW (eqc : Nat → Nat → Bool) (q t : List Nat) (j : Nat) : Nat :=
  ((List.range (j + 2)).map fun i => distNW eqc q ((t.take (j + 1)).drop i)).foldr min
    (distNW eqc q (t.take (j + 1)))

/-- Modelled from the spec: the end locations enumerated by the Location
Finder, in increasing target-index order: every accepting column whose cost
equals the optimal distance `d`; for Global mode only the last column is
eligible (spec sections 4.4 and 4.5). -/
def endLocs (eqc : Nat → Nat → Bool) (mode : EdlibAlignModeRs)
    (q t : List Nat) (d : Nat) : List Int :=
  match mode with
  | EdlibAlignModeRs.EDLIB_MODE_NW => [(t.length : Int) - 1]
  | EdlibAlignModeRs.EDLIB_MODE_SHW =>
      ((List.range t.length).filter fun j => distNW eqc q (t.take (j + 1)) == d).map
        fun j => (j : Int)
  | EdlibAlignModeRs.EDLIB_MODE_HW =>
      ((List.range t.length).filter fun j => colCostHW eqc q t j == d).map
        fun j => (j : Int)

/-- Modelled from the spec: the start location paired with each end location
(the first qualifying start, spec section 4.5); Global and PrefixFree
alignments start at the beginning of the target. -/
def startLocs (eqc : Nat → Nat → Bool) (mode : EdlibAlignModeRs)
    (q t : List Nat) (d : Nat) (ends : List Int) : List Int :=
  match mode with
  | EdlibAlignModeRs.EDLIB_MODE_NW => ends.map fun _ => 0
  | EdlibAlignModeRs.EDLIB_MODE_SHW => ends.map fun _ => 0
  | EdlibAlignModeRs.EDLIB_MODE_HW =>
      ends.map fun e =>
        ((((List.range (e.toNat + 2)).find? fun i =>
            distNW eqc q ((t.take (e.toNat + 1)).drop i) == d).getD 0 : Nat) : Int)

/-- Modelled from the spec: the Path Reconstructor (spec section 4.6), emitting
the forward-order edit operations for the query against the selected target
subrange, choosing at each step in the fixed priority order diagonal-match,
diagonal-mismatch, delete-from-target (consumes query, code 2), insert-to-target
(consumes target, code 1).  The fuel argument bounds the number of emitted
operations by the total length and makes the recursion structural. -/
def pathOpsF (eqc : Nat → Nat → Bool) : Nat → List Nat → List Nat → List Nat
  | 0, _, _ => []
  | _ + 1, [], t => t.map fun _ => 1
  | f + 1, _ :: q, [] => 2 :: pathOpsF eqc f q []
  | f + 1, a :: q, b :: t =>
      if eqc a b && (distNW eqc q t == distNW eqc (a :: q) (b :: t)) then
        0 :: pathOpsF eqc f q t
      else if distNW eqc (a :: q) (b :: t) == distNW eqc q t + 1 then
        3 :: pathOpsF eqc f q t
      else if distNW eqc (a :: q) (b :: t) == distNW eqc q (b :: t) + 1 then
        2 :: pathOpsF eqc f q (b :: t)
      else
        1 :: pathOpsF eqc f (a :: q) t

/-- Modelled from the spec: the edit-operation sequence aligning the query to
a target subrange (spec section 4.6). -/
def pathOps (eqc : Nat → Nat → Bool) (q t : List Nat) : List Nat :=
  pathOpsF eqc (q.length + t.length) q t

/-- Modelled from the spec: the alignment path for the first (start, end) pair
(spec section 4.6). -/
def alignPath (eqc : Nat → Nat → Bool) (mode : EdlibAlignModeRs)
    (q t : List Nat) (d : Nat) : Option (List Nat) :=
  match (endLocs eqc mode q t d).head?,
      (startLocs eqc mode q t d (endLocs eqc mode q t d)).head? with
  | some e, some s => some (pathOps eqc q ((t.take (e.toNat + 1)).drop s.toNat))
  | _, _ => none

/-- Modelled from the spec: the result when the best distance exceeds a
non-negative bound `k`: `editDistance = -1`, all location and path arrays
`NULL`, `status = Ok` (spec section 7, `BoundExceeded`). -/
def alignExceeded (q t : List Nat) : EdlibAlignResult :=
  { status := EDLIB_STATUS_OK,
    editDistance := -1,
    endLocations := none,
    startLocations := none,
    numLocations := 0,
    alignment := none,
    alignmentLength := 0,
    alphabetLength := ((q ++ t).dedup).length }

/-- Modelled from the spec: the conclusive engine result: the distance, the
end locations, start locations when the task requests them, and the alignment
path when the task requests it (spec sections 4.5, 4.6 and 6). -/
def alignFound (q t : List Nat) (mode : EdlibAlignModeRs)
    (task : EdlibAlignTaskRs) (pairs : List EdlibEqualityPairRs) : EdlibAlignResult :=
  { status := EDLIB_STATUS_OK,
    editDistance := (modeDist (eqOf pairs) mode q t : Int),
    endLocations := some (endLocs (eqOf pairs) mode q t (modeDist (eqOf pairs) mode q t)),
    startLocations :=
      if task = EdlibAlignTaskRs.EDLIB_TASK_DISTANCE then none
      else some (startLocs (eqOf pairs) mode q t (modeDist (eqOf pairs) mode q t)
        (endLocs (eqOf pairs) mode q t (modeDist (eqOf pairs) mode q t))),
    numLocations := (endLocs (eqOf pairs) mode q t (modeDist (eqOf pairs) mode q t)).length,
    alignment :=
      if task = EdlibAlignTaskRs.EDLIB_TASK_PATH then
        alignPath (eqOf pairs) mode q t (modeDist (eqOf pairs) mode q t)
      else none,
    alignmentLength :=
      ((if task = EdlibAlignTaskRs.EDLIB_TASK_PATH then
          alignPath (eqOf pairs) mode q t (modeDist (eqOf pairs) mode q t)
        else none).map List.length).getD 0,
    alphabetLength := ((q ++ t).dedup).length }

/-- Modelled from the spec: the native engine `edlibAlign`, absent from src/
(declared in `crate::bindings`): compute the mode's distance; if a non-negative
bound `k` is exceeded report the sentinel result, otherwise the conclusive
result (spec sections 4.3, 6 and 7). -/
def edlibAlign (q t : List Nat) (k : Int) (mode : EdlibAlignModeRs)
    (task : EdlibAlignTaskRs) (pairs : List EdlibEqualityPairRs) : EdlibAlignResult :=
  if 0 ≤ k ∧ k < (modeDist (eqOf pairs) mode q t : Int) then alignExceeded q t
  else alignFound q t mode task pairs

/-- Modelled from the spec: the single entry point
`align(query, target, config) -> AlignmentResult` of spec section 6, invoking
the engine with the configured bound, mode, task and equality pairs. -/
def align (q t : List Nat) (cfg : EdlibAlignConfigRs) : EdlibAlignResult :=
  edlibAlign q t cfg.k cfg.mode cfg.task cfg.additionalequalities

/-! ## The Rust marshalling layer, translated from `src/edlib.rs` -/

/-- Modelled from the spec: the C configuration record filled by
`edlibDefaultAlignConfig()`, absent from src/ (declared in `crate::bindings`);
its defaults mirror the documented Rust defaults: `k = -1`, `EDLIB_MODE_NW`,
`EDLIB_TASK_DISTANCE`, no additional equalities (`NULL` pointer, length 0). -/
structure EdlibAlignConfig where
  k : Int
  mode : EdlibAlignModeRs
  task : EdlibAlignTaskRs
  additionalEqualities : Option (List EdlibEqualityPairRs)
  additionalEqualitiesLength : Nat
deriving DecidableEq, Repr

/-- Modelled from the spec: the default C configuration returned by the native
`edlibDefaultAlignConfig()` (see `EdlibAlignConfig`). -/
def edlibDefaultAlignConfig : EdlibAlignConfig :=
  { k := -1,
    mode := EdlibAlignModeRs.EDLIB_MODE_NW,
    task := EdlibAlignTaskRs.EDLIB_TASK_DISTANCE,
    additionalEqualities := none,
    additionalEqualitiesLength := 0 }

/-- Modelled from the spec: the native call `edlibAlign(query, …, config_c)`:
the engine reads `additionalEqualitiesLength` pairs from the
`additionalEqualities` pointer (`none` models `NULL`, read as no pairs only
when the length is zero) and runs with the C configuration's fields. -/
def edlibAlignC (q t : List Nat) (cfg : EdlibAlignConfig) : EdlibAlignResult :=
  edlibAlign q t cfg.k cfg.mode cfg.task
    ((cfg.additionalEqualities.getD []).take cfg.additionalEqualitiesLength)

/-- The sentinel result marshalled by the wrapper when the engine reports that
the distance exceeds `k`: only `status`, `editDistance` and `numLocations` are
copied onto the default record (src/edlib.rs lines 272-282). -/
def emptyAlignResultRs : EdlibAlignResultRs :=
  { status := EDLIB_STATUS_OK,
    editDistance := -1,
    endLocations := none,
    startLocations := none,
    numLocations := 0,
    alignment := none,
    alignmentLength := 0,
    alphabetLength := 0 }

/-- The Rust wrapper `edlibAlignRs` (src/edlib.rs lines 246-287), translated
statement by statement:
it copies the default C configuration, overwrites `k`, `mode` and the equality
pair slice (the `task` field is never assigned, so the engine always runs with
the C default `EDLIB_TASK_DISTANCE`), calls the native engine, then copies
`status`, `editDistance` and `numLocations` onto a default result record and,
whenever `numLocations > 0`, reads `numLocations` entries from both the
`endLocations` and the `startLocations` arrays with `slice::from_raw_parts`.
Reading from a `NULL` array pointer is undefined behaviour, modelled as `none`.
The `alignment`, `alignmentLength` and `alphabetLength` fields of the C result
are never copied. -/
def edlibAlignRs (query target : List Nat) (config_rs : EdlibAlignConfigRs) :
    Option EdlibAlignResultRs :=
  let config_c := edlibDefaultAlignConfig
  let config_c := { config_c with k := config_rs.k }
  let config_c := { config_c with mode := config_rs.mode }
  let config_c := { config_c with
    additionalEqualitiesLength := config_rs.additionalequalities.length }
  let config_c := { config_c with
    additionalEqualities :=
      if config_rs.additionalequalities.length > 0 then
        some config_rs.additionalequalities
      else none }
  let res_c := edlibAlignC query target config_c
  let align_res_rs := EdlibAlignResultRs.default
  let align_res_rs := { align_res_rs with
    status := res_c.status,
    editDistance := res_c.editDistance,
    numLocations := res_c.numLocations }
  if align_res_rs.numLocations > 0 then
    match res_c.endLocations, res_c.startLocations with
    | some s_end, some s_start =>
        some { align_res_rs with
          endLocations := some (s_end.take align_res_rs.numLocations),
          startLocations := some (s_start.take align_res_rs.numLocations) }
    | _, _ => none
  else
    some align_res_rs

/-- State-passing embedding of the wrapper call: `edlibAlignRs` borrows the
configuration immutably (`&EdlibAlignConfigRs`) and contains no write through
it (all mutation targets the local C copy `config_c`), so the caller-visible
configuration after the call is the input configuration unchanged. -/
def edlibAlignRsSt (query target : List Nat) (config_rs : EdlibAlignConfigRs) :
    Option EdlibAlignResultRs × EdlibAlignConfigRs :=
  (edlibAlignRs query target config_rs, config_rs)

/-! ## The CIGAR encoder -/

/-- The letter emitted for an edit operation (src/edlib.rs lines 70-73 and
303-307): standard format maps match and mismatch to 'M', extended format maps
match to '=' and mismatch to 'X'; insertion to target is 'I' and deletion from
target is 'D' in both. -/
def cigarOpChar (fmt : EdlibCigarFormatRs) (op : Nat) : Char :=
  match fmt with
  | EdlibCigarFormatRs.EDLIB_CIGAR_STANDARD =>
      if op == 1 then 'I' else if op == 2 then 'D' else 'M'
  | EdlibCigarFormatRs.EDLIB_CIGAR_EXTENDED =>
      if op == 0 then '=' else if op == 1 then 'I' else if op == 2 then 'D' else 'X'

/-- Run-length encoding of an operation sequence: maximal runs of consecutive
identical operations with their lengths, in order. -/
def cigarRuns : List Nat → List (Nat × Nat)
  | [] => []
  | op :: rest =>
      match cigarRuns rest with
      | [] => [(op, 1)]
      | (op2, c) :: rs =>
          if op == op2 then (op2, c + 1) :: rs else (op, 1) :: (op2, c) :: rs

/-- Modelled from the spec: the Cigar Encoder (spec section 4.7), absent from
src/ (the Rust function is an unimplemented stub): run-length-encode the
operation sequence, each run serialized as the count followed by the
format-dependent letter. -/
def cigarSpec (ops : List Nat) (fmt : EdlibCigarFormatRs) : String :=
  String.join ((cigarRuns ops).map fun r =>
    toString r.2 ++ String.singleton (cigarOpChar fmt r.1))

/-- The Rust function `edlibAlignmentToCigarRs` (src/edlib.rs lines 312-315):
its body only prints a placeholder and returns the unit value; no CIGAR text is
produced. -/
def edlibAlignmentToCigarRs (alignment : List Nat) (cigarFormat : EdlibCigarFormatRs) :
    Unit :=
  ()

/-! ## Helper lemmas -/

@[simp]
theorem edlibCost_delete (eqc : Nat → Nat → Bool) (a : Nat) :
    (edlibCost eqc).delete a = 1 := rfl

@[simp]
theorem edlibCost_insert (eqc : Nat → Nat → Bool) (b : Nat) :
    (edlibCost eqc).insert b = 1 := rfl

@[simp]
theorem edlibCost_substitute (eqc : Nat → Nat → Bool) (a b : Nat) :
    (edlibCost eqc).substitute a b = if eqc a b then 0 else 1 := rfl

theorem distNW_nil_cons (eqc : Nat → Nat → Bool) (b : Nat) (t : List Nat) :
    distNW eqc [] (b :: t) = 1 + distNW eqc [] t := by
  simp only [distNW, levenshtein_nil_cons, edlibCost_insert]

theorem distNW_cons_nil (eqc : Nat → Nat → Bool) (a : Nat) (q : List Nat) :
    distNW eqc (a :: q) [] = 1 + distNW eqc q [] := by
  simp only [distNW, levenshtein_cons_nil, edlibCost_delete]

theorem distNW_cons_cons (eqc : Nat → Nat → Bool) (a : Nat) (q : List Nat)
    (b : Nat) (t : List Nat) :
    distNW eqc (a :: q) (b :: t) =
      min (1 + distNW eqc q (b :: t))
        (min (1 + distNW eqc (a :: q) t) ((if eqc a b then 0 else 1) + distNW eqc q t)) := by
  simp only [distNW, levenshtein_cons_cons, edlibCost_delete, edlibCost_insert,
    edlibCost_substitute]

theorem distNW_nil (eqc : Nat → Nat → Bool) (t : List Nat) :
    distNW eqc [] t = t.length := by
  induction t with
  | nil => rfl
  | cons b t ih => rw [distNW_nil_cons, ih, List.length_cons]; omega

theorem distNW_nil_left (eqc : Nat → Nat → Bool) (q : List Nat) :
    distNW eqc q [] = q.length := by
  induction q with
  | nil => rfl
  | cons a q ih => rw [distNW_cons_nil, ih, List.length_cons]; omega

theorem nat_beq_comm (a b : Nat) : (a == b) = (b == a) := by
  rw [Bool.eq_iff_iff, beq_iff_eq, beq_iff_eq]
  exact eq_comm

theorem eqOf_symm (pairs : List EdlibEqualityPairRs) (a b : Nat) :
    eqOf pairs a b = eqOf pairs b a := by
  unfold eqOf
  rw [nat_beq_comm a b]
  congr 1
  induction pairs with
  | nil => rfl
  | cons p ps ih =>
      rw [List.any_cons, List.any_cons, ih]
      congr 1
      exact Bool.or_comm _ _

theorem distNW_comm_aux (eqc : Nat → Nat → Bool) (hs : ∀ a b, eqc a b = eqc b a) :
    ∀ n q t, q.length + t.length ≤ n → distNW eqc q t = distNW eqc t q := by
  intro n
  induction n with
  | zero =>
      intro q t h
      rcases q with _ | ⟨a, q⟩
      · rcases t with _ | ⟨b, t⟩
        · rfl
        · simp at h
      · simp at h
  | succ n ih =>
      intro q t h
      rcases q with _ | ⟨a, q⟩
      · rw [distNW_nil, distNW_nil_left]
      · rcases t with _ | ⟨b, t⟩
        · rw [distNW_nil_left, distNW_nil]
        · have h1 : distNW eqc q (b :: t) = distNW eqc (b :: t) q :=
            ih q (b :: t) (by simp at h ⊢; omega)
          have h2 : distNW eqc (a :: q) t = distNW eqc t (a :: q) :=
            ih (a :: q) t (by simp at h ⊢; omega)
          have h3 : distNW eqc q t = distNW eqc t q :=
            ih q t (by simp at h ⊢; omega)
          rw [distNW_cons_cons, distNW_cons_cons, hs b a, h1, h2, h3]
          generalize (if eqc a b then 0 else 1) = c
          omega

theorem distNW_comm (eqc : Nat → Nat → Bool) (hs : ∀ a b, eqc a b = eqc b a)
    (q t : List Nat) : distNW eqc q t = distNW eqc t q :=
  distNW_comm_aux eqc hs (q.length + t.length) q t le_rfl

theorem foldr_min_le (l : List Nat) (d : Nat) : l.foldr min d ≤ d := by
  induction l with
  | nil => exact Nat.le_refl d
  | cons a l ih => exact le_trans (Nat.min_le_right a (l.foldr min d)) ih

theorem distSHW_le_distNW (eqc : Nat → Nat → Bool) (q t : List Nat) :
    distSHW eqc q t ≤ distNW eqc q t :=
  foldr_min_le _ _

theorem distHW_le_distSHW (eqc : Nat → Nat → Bool) (q t : List Nat) :
    distHW eqc q t ≤ distSHW eqc q t :=
  foldr_min_le _ _

theorem config_pairs_roundtrip (ps : List EdlibEqualityPairRs) :
    ((if ps.length > 0 then some ps else none).getD []).take ps.length = ps := by
  cases ps with
  | nil => rfl
  | cons p ps' => simp [List.take_length]

theorem edlibAlign_exceeded (q t : List Nat) (k : Int) (mode : EdlibAlignModeRs)
    (task : EdlibAlignTaskRs) (pairs : List EdlibEqualityPairRs) (h0 : 0 ≤ k)
    (h1 : k < (modeDist (eqOf pairs) mode q t : Int)) :
    edlibAlign q t k mode task pairs = alignExceeded q t := by
  unfold edlibAlign
  exact if_pos ⟨h0, h1⟩

/-! ## Claim theorems -/

/-- Claim C1: for every query, target and configuration with a non-negative
bound `k`, if the true edit distance exceeds `k` then the wrapper returns the
sentinel result: `editDistance = -1`, `status = Ok`, and the `endLocations`,
`startLocations` and `alignment` fields are all absent. -/
theorem edlibAlignRs_bound_exceeded (q t : List Nat) (cfg : EdlibAlignConfigRs)
    (h0 : 0 ≤ cfg.k)
    (h1 : cfg.k < (modeDist (eqOf cfg.additionalequalities) cfg.mode q t : Int)) :
    edlibAlignRs q t cfg = some emptyAlignResultRs ∧
      emptyAlignResultRs.editDistance = -1 ∧
      emptyAlignResultRs.status = EDLIB_STATUS_OK ∧
      emptyAlignResultRs.endLocations = none ∧
      emptyAlignResultRs.startLocations = none ∧
      emptyAlignResultRs.alignment = none ∧
      emptyAlignResultRs.numLocations = 0 := by
  refine ⟨?_, rfl, rfl, rfl, rfl, rfl, rfl⟩
  unfold edlibAlignRs edlibAlignC edlibDefaultAlignConfig
  dsimp only
  rw [config_pairs_roundtrip,
    edlibAlign_exceeded q t cfg.k cfg.mode EdlibAlignTaskRs.EDLIB_TASK_DISTANCE
      cfg.additionalequalities h0 h1]
  rfl

/-- Witness for claim C1 at a concrete input: query `"A"`, target `"BB"`,
`k = 0`, Global mode (true distance 2 exceeds the bound). -/
theorem edlibAlignRs_bound_exceeded_witness :
    edlibAlignRs [65] [66, 66]
        ⟨0, EdlibAlignModeRs.EDLIB_MODE_NW, EdlibAlignTaskRs.EDLIB_TASK_DISTANCE, []⟩ =
        some emptyAlignResultRs ∧
      emptyAlignResultRs.editDistance = -1 ∧
      emptyAlignResultRs.status = EDLIB_STATUS_OK ∧
      emptyAlignResultRs.endLocations = none ∧
      emptyAlignResultRs.startLocations = none ∧
      emptyAlignResultRs.alignment = none ∧
      emptyAlignResultRs.numLocations = 0 :=
  edlibAlignRs_bound_exceeded [65] [66, 66] _ (by decide) (by decide)

/-- Claim C2 (refuted, code bug): the task field does not control which result
fields the wrapper populates.  The wrapper never assigns `config_c.task`, so
the native engine always runs with the C default `EDLIB_TASK_DISTANCE`; with
task `WithPath` on query = target = `"AB"` the wrapper dereferences the `NULL`
`startLocations` array (undefined behaviour, modelled as `none`) and never
copies any alignment path, while the spec-level entry point honouring the task
produces the path `[Match, Match]`. -/
theorem edlibAlignRs_task_path_broken :
    edlibAlignRs [65, 66] [65, 66]
        ⟨-1, EdlibAlignModeRs.EDLIB_MODE_NW, EdlibAlignTaskRs.EDLIB_TASK_PATH, []⟩ = none ∧
      (align [65, 66] [65, 66]
        ⟨-1, EdlibAlignModeRs.EDLIB_MODE_NW, EdlibAlignTaskRs.EDLIB_TASK_PATH, []⟩).alignment =
        some [0, 0] := by
  exact ⟨by decide, by decide⟩

/-- Claim C3 (refuted, code bug): the wrapper never returns a result in which
both location fields are populated: because `config_c.task` is never assigned,
the engine always runs `DistanceOnly` and leaves `startLocations` `NULL`, which
the wrapper dereferences whenever `numLocations > 0` (undefined behaviour,
modelled as `none`).  The spec-level entry point honouring the requested
`WithLocations` task produces both fields with one location each. -/
theorem edlibAlignRs_loc_broken :
    edlibAlignRs [65] [65]
        ⟨-1, EdlibAlignModeRs.EDLIB_MODE_NW, EdlibAlignTaskRs.EDLIB_TASK_LOC, []⟩ = none ∧
      (align [65] [65]
        ⟨-1, EdlibAlignModeRs.EDLIB_MODE_NW, EdlibAlignTaskRs.EDLIB_TASK_LOC, []⟩).endLocations =
        some [0] ∧
      (align [65] [65]
        ⟨-1, EdlibAlignModeRs.EDLIB_MODE_NW, EdlibAlignTaskRs.EDLIB_TASK_LOC, []⟩).startLocations =
        some [0] ∧
      (align [65] [65]
        ⟨-1, EdlibAlignModeRs.EDLIB_MODE_NW, EdlibAlignTaskRs.EDLIB_TASK_LOC, []⟩).numLocations =
        1 := by
  exact ⟨by decide, by decide, by decide, by decide⟩

/-- Claim C4 (refuted, code bug): the secondary entry point
`edlibAlignmentToCigarRs` is an unimplemented stub returning the unit value, so
it does not return the CIGAR text; the spec-modelled encoder shows what the
claim requires at the failing input `[Match, Match, Match]` (namely `"3M"`) and
the Standard/Extended letter mapping. -/
theorem edlibAlignmentToCigarRs_stub :
    edlibAlignmentToCigarRs [0, 0, 0] EdlibCigarFormatRs.EDLIB_CIGAR_STANDARD = () ∧
      cigarSpec [0, 0, 0] EdlibCigarFormatRs.EDLIB_CIGAR_STANDARD = "3M" ∧
      cigarSpec [0, 3, 1, 2] EdlibCigarFormatRs.EDLIB_CIGAR_STANDARD = "1M1M1I1D" ∧
      cigarSpec [0, 3, 1, 2] EdlibCigarFormatRs.EDLIB_CIGAR_EXTENDED = "1=1X1I1D" := by
  exact ⟨rfl, by decide, by decide, by decide⟩

/-- Claim C5: the edit distance computed by the align entry point in Global
mode is symmetric in the two sequences (for any bound, task and equality
pairs: the extended equality relation is symmetric by construction). -/
theorem align_nw_symm (q t : List Nat) (cfg : EdlibAlignConfigRs)
    (hm : cfg.mode = EdlibAlignModeRs.EDLIB_MODE_NW) :
    (align q t cfg).editDistance = (align t q cfg).editDistance := by
  have hd : modeDist (eqOf cfg.additionalequalities) cfg.mode q t =
      modeDist (eqOf cfg.additionalequalities) cfg.mode t q := by
    rw [hm]
    exact distNW_comm _ (eqOf_symm cfg.additionalequalities) q t
  unfold align edlibAlign
  rw [hd]
  by_cases hc : 0 ≤ cfg.k ∧
      cfg.k < (modeDist (eqOf cfg.additionalequalities) cfg.mode t q : Int)
  · rw [if_pos hc, if_pos hc]
    rfl
  · rw [if_neg hc, if_neg hc]
    unfold alignFound
    dsimp only
    rw [hd]

/-- Witness for claim C5 at a concrete input: `"KITTEN"` against `"SITTING"`
in Global mode. -/
theorem align_nw_symm_witness :
    (align [75, 73, 84, 84, 69, 78] [83, 73, 84, 84, 73, 78, 71]
        ⟨-1, EdlibAlignModeRs.EDLIB_MODE_NW, EdlibAlignTaskRs.EDLIB_TASK_DISTANCE, []⟩).editDistance =
      (align [83, 73, 84, 84, 73, 78, 71] [75, 73, 84, 84, 69, 78]
        ⟨-1, EdlibAlignModeRs.EDLIB_MODE_NW, EdlibAlignTaskRs.EDLIB_TASK_DISTANCE, []⟩).editDistance :=
  align_nw_symm _ _ _ rfl

/-- Claim C6: with unbounded `k`, the distances computed by the align entry
point under the three modes are ordered: InfixFree distance is at most
PrefixFree distance, which is at most Global distance. -/
theorem align_mode_mono (q t : List Nat) (pairs : List EdlibEqualityPairRs) :
    (align q t ⟨-1, EdlibAlignModeRs.EDLIB_MODE_HW,
        EdlibAlignTaskRs.EDLIB_TASK_DISTANCE, pairs⟩).editDistance ≤
      (align q t ⟨-1, EdlibAlignModeRs.EDLIB_MODE_SHW,
        EdlibAlignTaskRs.EDLIB_TASK_DISTANCE, pairs⟩).editDistance ∧
    (align q t ⟨-1, EdlibAlignModeRs.EDLIB_MODE_SHW,
        EdlibAlignTaskRs.EDLIB_TASK_DISTANCE, pairs⟩).editDistance ≤
      (align q t ⟨-1, EdlibAlignModeRs.EDLIB_MODE_NW,
        EdlibAlignTaskRs.EDLIB_TASK_DISTANCE, pairs⟩).editDistance := by
  have hub : ∀ m : EdlibAlignModeRs,
      (align q t ⟨-1, m, EdlibAlignTaskRs.EDLIB_TASK_DISTANCE, pairs⟩).editDistance =
        (modeDist (eqOf pairs) m q t : Int) := by
    intro m
    unfold align edlibAlign
    dsimp only
    rw [if_neg]
    · rfl
    · rintro ⟨hneg, -⟩
      omega
  rw [hub, hub, hub]
  exact ⟨Nat.cast_le.mpr (distHW_le_distSHW _ _ _), Nat.cast_le.mpr (distSHW_le_distNW _ _ _)⟩

/-- Claim C7: for fixed query, target, mode, task and equality pairs, two
non-negative bounds `k1 < k2` that are both at least the true distance yield
identical `editDistance` and identical `endLocations`. -/
theorem align_k_mono (q t : List Nat) (mode : EdlibAlignModeRs)
    (task : EdlibAlignTaskRs) (pairs : List EdlibEqualityPairRs) (k1 k2 : Int)
    (h0 : 0 ≤ k1) (h12 : k1 < k2)
    (hk : (modeDist (eqOf pairs) mode q t : Int) ≤ k1) :
    (align q t ⟨k1, mode, task, pairs⟩).editDistance =
        (align q t ⟨k2, mode, task, pairs⟩).editDistance ∧
      (align q t ⟨k1, mode, task, pairs⟩).endLocations =
        (align q t ⟨k2, mode, task, pairs⟩).endLocations := by
  have h1 : ¬(0 ≤ k1 ∧ k1 < (modeDist (eqOf pairs) mode q t : Int)) := by
    rintro ⟨-, h⟩
    omega
  have h2 : ¬(0 ≤ k2 ∧ k2 < (modeDist (eqOf pairs) mode q t : Int)) := by
    rintro ⟨-, h⟩
    omega
  unfold align edlibAlign
  dsimp only
  rw [if_neg h1, if_neg h2]
  exact ⟨rfl, rfl⟩

/-- Witness for claim C7 at a concrete input: query = target = `"A"` (true
distance 0) with bounds `k1 = 0 < k2 = 1`. -/
theorem align_k_mono_witness :
    (align [65] [65] ⟨0, EdlibAlignModeRs.EDLIB_MODE_NW,
        EdlibAlignTaskRs.EDLIB_TASK_DISTANCE, []⟩).editDistance =
        (align [65] [65] ⟨1, EdlibAlignModeRs.EDLIB_MODE_NW,
          EdlibAlignTaskRs.EDLIB_TASK_DISTANCE, []⟩).editDistance ∧
      (align [65] [65] ⟨0, EdlibAlignModeRs.EDLIB_MODE_NW,
          EdlibAlignTaskRs.EDLIB_TASK_DISTANCE, []⟩).endLocations =
        (align [65] [65] ⟨1, EdlibAlignModeRs.EDLIB_MODE_NW,
          EdlibAlignTaskRs.EDLIB_TASK_DISTANCE, []⟩).endLocations :=
  align_k_mono [65] [65] EdlibAlignModeRs.EDLIB_MODE_NW
    EdlibAlignTaskRs.EDLIB_TASK_DISTANCE [] 0 1 (by decide) (by decide) (by decide)

/-- Claim C8: for query `"KITTEN"` and target `"SITTING"` in Global mode with
unbounded `k`, the align entry point returns `editDistance = 3`. -/
theorem align_kitten_sitting :
    (align [75, 73, 84, 84, 69, 78] [83, 73, 84, 84, 73, 78, 71]
        ⟨-1, EdlibAlignModeRs.EDLIB_MODE_NW,
          EdlibAlignTaskRs.EDLIB_TASK_DISTANCE, []⟩).editDistance = 3 := by
  decide

/-- Claim C9: the wrapper call never mutates the caller's configuration: in
the state-passing embedding of the call, every field of the configuration
(`k`, `mode`, `task`, `additionalequalities`) after the call equals its value
before the call. -/
theorem edlibAlignRs_config_frame (q t : List Nat) (cfg : EdlibAlignConfigRs) :
    (edlibAlignRsSt q t cfg).2.k = cfg.k ∧
      (edlibAlignRsSt q t cfg).2.mode = cfg.mode ∧
      (edlibAlignRsSt q t cfg).2.task = cfg.task ∧
      (edlibAlignRsSt q t cfg).2.additionalequalities = cfg.additionalequalities :=
  ⟨rfl, rfl, rfl, rfl⟩

/-- Claim C10: the default alignment configuration has `k = -1` (unbounded),
Global (NW) mode, DistanceOnly task, and no additional equality pairs. -/
theorem default_config_fields :
    EdlibAlignConfigRs.default.k = -1 ∧
      EdlibAlignConfigRs.default.mode = EdlibAlignModeRs.EDLIB_MODE_NW ∧
      EdlibAlignConfigRs.default.task = EdlibAlignTaskRs.EDLIB_TASK_DISTANCE ∧
      EdlibAlignConfigRs.default.additionalequalities = [] :=
  ⟨rfl, rfl, rfl, rfl⟩
